import Mathlib

/-!
# Shallow embedding of `dashboard.py` (Jades-Dashboard)

The repository is a single Streamlit script, `src/dashboard.py`.  This file
embeds the data model and the data transformations that the script performs:

* a sales table is a list of records (`Row`); every categorical column is an
  `Option String`, where `none` stands for a pandas missing value (NaN), and
  `quantity` is an integer;
* pandas `groupby(col)['quantity']` aggregations are embedded as a fold that
  collects, per non-missing key, the list of quantities of its rows
  (`groupByKey`), mirroring that pandas drops rows whose group key is NaN;
* the six sidebar filters of `main` are embedded as `applyFilters` /
  `applyFiltersState`, the dropdown option lists as `locationOptions`,
  `seriesOptions`, `variantOptions`, …; the rendering pipeline of `main`
  after the filters as `mainRender`, a list of abstract `Output`s.

Modelling conventions (each noted again at the definition it concerns):

* pandas sorts group keys and `main` sorts dropdown values with `sorted`;
  ordering is abstracted (groups/options are kept in first-appearance order),
  which leaves per-group totals, per-group statistics and option membership
  unchanged — but failure of `sorted` is not abstracted: the four unguarded
  dropdowns return `none` exactly where Python's `sorted` raises `TypeError`
  on a NaN/string mix;
* floating point is replaced by exact arithmetic: means and variances are
  rationals (`ℚ`); the sample standard deviation requested from pandas via
  `'std'` is represented by its square (the ddof=1 sample variance), since
  the square root of a rational is not rational; the display-only
  `.round(2)` is dropped;
* Streamlit widgets are data: a rendering step becomes an `Output` value,
  a download button carries the full content it would serve.
-/

set_option linter.unusedVariables false

/-- One record of the sales table.  Each categorical column is `Option String`
(`none` = pandas NaN); `quantity` is the numeric sales quantity. -/
structure Row where
  sheet_name : Option String
  location : Option String
  day : Option String
  event_type : Option String
  series_character : Option String
  character_variant : Option String
  product_type : Option String
  quantity : Int
deriving DecidableEq, Repr

/-- A pandas `DataFrame` with the columns above: a list of rows. -/
abbrev Table := List Row

/-! ## Groupby machinery

`df.groupby(key)['quantity']` is embedded as a left fold that walks the rows
in order and appends each row's quantity to the bucket of its key, skipping
rows whose key is missing (pandas drops NaN group keys).  Pandas additionally
sorts the resulting group keys; that ordering is abstracted away (buckets are
kept in order of first appearance), which does not affect the per-group
contents that the claims are about. -/

/-- Append quantity `q` to the bucket of key `k` (creating it at the end if
absent), keeping all other buckets unchanged. -/
def insertKey {α : Type} [DecidableEq α] (acc : List (α × List Int)) (k : α) (q : Int) :
    List (α × List Int) :=
  match acc with
  | [] => [(k, [q])]
  | (k', qs) :: rest =>
      if k' = k then (k', qs ++ [q]) :: rest else (k', qs) :: insertKey rest k q

/-- `df.groupby(key)['quantity']`: the per-key lists of quantities, in order of
first appearance of each key; rows with a missing key are dropped. -/
def groupByKey {α : Type} [DecidableEq α] (key : Row → Option α) (t : Table) :
    List (α × List Int) :=
  t.foldl
    (fun acc r =>
      match key r with
      | none => acc
      | some k => insertKey acc k r.quantity)
    []

/-- Look a key up in an association list (the value of the first entry whose
key matches, as in a pandas index lookup). -/
def lookupG {α β : Type} [DecidableEq α] (l : List (α × β)) (k : α) : Option β :=
  (l.find? (fun p => p.1 = k)).map (fun p => p.2)

/-- The quantities of the rows of `t` whose key is exactly `some k`, in row
order: the reference value every groupby bucket is compared to. -/
def matchingQuantities {α : Type} [DecidableEq α] (key : Row → Option α) (t : Table) (k : α) :
    List Int :=
  (t.filter (fun r => key r = some k)).map (fun r => r.quantity)

theorem lookupG_nil {α β : Type} [DecidableEq α] (k : α) :
    lookupG ([] : List (α × β)) k = none := rfl

theorem lookupG_cons {α β : Type} [DecidableEq α] (p : α × β) (l : List (α × β)) (k : α) :
    lookupG (p :: l) k = if p.1 = k then some p.2 else lookupG l k := by
  by_cases h : p.1 = k <;> simp [lookupG, List.find?, h]

theorem lookupG_insertKey {α : Type} [DecidableEq α]
    (acc : List (α × List Int)) (k k' : α) (q : Int) :
    lookupG (insertKey acc k q) k'
      = if k' = k then some ((lookupG acc k').getD [] ++ [q]) else lookupG acc k' := by
  induction acc with
  | nil =>
      by_cases h : k' = k
      · subst h; simp [insertKey, lookupG_cons, lookupG_nil]
      · rw [insertKey, if_neg h, lookupG_cons, lookupG_nil,
          if_neg (fun hh : k = k' => h hh.symm)]
  | cons p rest ih =>
      obtain ⟨a, qs⟩ := p
      simp only [insertKey]
      by_cases hk : a = k
      · subst hk
        rw [if_pos rfl]
        by_cases h : k' = a
        · subst h
          simp [lookupG_cons]
        · rw [if_neg h, lookupG_cons, if_neg (fun hh : a = k' => h hh.symm),
            lookupG_cons, if_neg (fun hh : a = k' => h hh.symm)]

      · rw [if_neg hk]
        by_cases h : a = k'
        · subst h
          rw [lookupG_cons, if_pos rfl, lookupG_cons, if_pos rfl,
            if_neg (fun hh : a = k => hk hh)]
        · rw [lookupG_cons, if_neg h, lookupG_cons, if_neg h, ih]

/-- Core groupby lemma: after folding the whole table on top of `acc`, the
bucket of `k` holds the bucket it had in `acc` followed by the quantities of
exactly the rows of `t` whose key is `some k`; a key with no entry and no
matching row stays absent. -/
theorem lookupG_groupByKey_aux {α : Type} [DecidableEq α]
    (key : Row → Option α) (t : Table) (acc : List (α × List Int)) (k : α) :
    lookupG
        (t.foldl
          (fun acc r =>
            match key r with
            | none => acc
            | some g => insertKey acc g r.quantity)
          acc) k
      = if lookupG acc k = none ∧ matchingQuantities key t k = [] then none
        else some ((lookupG acc k).getD [] ++ matchingQuantities key t k) := by
  induction t generalizing acc with
  | nil =>
      simp [matchingQuantities]
      cases h : lookupG acc k with
      | none => simp
      | some v => simp
  | cons r t ih =>
      simp only [List.foldl_cons]
      cases hr : key r with
      | none =>
          rw [ih]
          have hm : matchingQuantities key (r :: t) k = matchingQuantities key t k := by
            simp [matchingQuantities, List.filter_cons, hr]
          rw [hm]
      | some g =>
          rw [ih]
          by_cases hg : g = k
          · have hm : matchingQuantities key (r :: t) k
                = r.quantity :: matchingQuantities key t k := by
              simp [matchingQuantities, List.filter_cons, hr, hg]
            rw [hm, lookupG_insertKey, if_pos hg.symm]
            have hns : ¬ ((some ((lookupG acc k).getD [] ++ [r.quantity]) : Option (List Int)) = none
                ∧ matchingQuantities key t k = []) := by
              intro h; exact Option.some_ne_none _ h.1
            have hnc : ¬ (lookupG acc k = none
                ∧ r.quantity :: matchingQuantities key t k = []) := by
              intro h; exact List.cons_ne_nil _ _ h.2
            rw [if_neg hns, if_neg hnc]
            simp
          · have hm : matchingQuantities key (r :: t) k = matchingQuantities key t k := by
              have hne : ¬ (key r = some k) := by
                rw [hr]; intro h; exact hg (Option.some.inj h)
              simp [matchingQuantities, List.filter_cons, hne]
            rw [hm, lookupG_insertKey, if_neg (fun h : k = g => hg h.symm)]

/-- The bucket of `k` in `groupByKey key t` is exactly the quantities of the
rows whose key is `some k` (when at least one such row exists). -/
theorem lookupG_groupByKey {α : Type} [DecidableEq α]
    (key : Row → Option α) (t : Table) (k : α)
    (h : matchingQuantities key t k ≠ []) :
    lookupG (groupByKey key t) k = some (matchingQuantities key t k) := by
  have := lookupG_groupByKey_aux key t [] k
  rw [groupByKey, this, if_neg (fun hc => h hc.2)]
  simp [lookupG_nil]

/-- Absent keys of `groupByKey` are the keys with no matching row. -/
theorem lookupG_groupByKey_none {α : Type} [DecidableEq α]
    (key : Row → Option α) (t : Table) (k : α)
    (h : matchingQuantities key t k = []) :
    lookupG (groupByKey key t) k = none := by
  have := lookupG_groupByKey_aux key t [] k
  rw [groupByKey, this, if_pos ⟨lookupG_nil k, h⟩]

/-- Looking up in a value-mapped association list. -/
theorem lookupG_map_val {α β γ : Type} [DecidableEq α]
    (f : β → γ) (l : List (α × β)) (k : α) :
    lookupG (l.map (fun p => (p.1, f p.2))) k = (lookupG l k).map f := by
  induction l with
  | nil => simp [lookupG]
  | cons p rest ih =>
      by_cases h : p.1 = k
      · simp [lookupG_cons, h]
      · simp only [List.map_cons]
        rw [lookupG_cons, lookupG_cons]
        simp only [h, if_false]
        exact ih

/-! ## Derived aggregations -/

/-- `df.groupby(key)['quantity'].sum()`: per-group totals. -/
def groupby_sum {α : Type} [DecidableEq α] (key : Row → Option α) (t : Table) :
    List (α × Int) :=
  (groupByKey key t).map (fun p => (p.1, p.2.sum))

/-- Two-column group key, e.g. `df.groupby(['event_type', 'location'])`:
pandas drops a row whenever either key is missing. -/
def pairKey (c1 c2 : Row → Option String) (r : Row) : Option (String × String) :=
  match c1 r, c2 r with
  | some a, some b => some (a, b)
  | _, _ => none

/-- The distinct non-missing values of a column, in order of first appearance
(ordering of pandas' sorted group index is abstracted). -/
def groupKeys (key : Row → Option String) (t : Table) : List String :=
  (t.filterMap key).dedup

/-- The rows of the group of `k` under `key`. -/
def groupRows {α : Type} [DecidableEq α] (key : Row → Option α) (t : Table) (k : α) : Table :=
  t.filter (fun r => key r = some k)

/-- Minimum of a quantity list (groups are never empty; `0` pads the
impossible empty case). -/
def qmin : List Int → Int
  | [] => 0
  | x :: xs => xs.foldl min x

/-- Maximum of a quantity list. -/
def qmax : List Int → Int
  | [] => 0
  | x :: xs => xs.foldl max x

/-- Mean of a quantity list as an exact rational (pandas would give a float;
the empty case, NaN in pandas, is padded with `0` and never reached on
groups). -/
def qmean (qs : List Int) : ℚ :=
  if qs.length = 0 then 0 else (qs.sum : ℚ) / (qs.length : ℚ)

/-- The `['sum', 'mean', 'std', 'min', 'max']` aggregate record of
`summary_stats` (dashboard.py lines 511-513).  `std` is pandas' ddof=1 sample
standard deviation; it is represented here by its square `std2` (the sample
variance), which is rational, with `none` for the `n ≤ 1` case where pandas
yields NaN; the display-only `.round(2)` is dropped. -/
structure QuantityStats where
  sum : Int
  mean : ℚ
  std2 : Option ℚ
  min : Int
  max : Int
deriving DecidableEq, Repr

/-- Aggregate a group's quantity list as `agg(['sum','mean','std','min','max'])`. -/
def aggStats (qs : List Int) : QuantityStats :=
  { sum := qs.sum
    mean := qmean qs
    std2 :=
      if qs.length ≤ 1 then none
      else some ((qs.map (fun q => ((q : ℚ) - qmean qs) ^ 2)).sum / ((qs.length : ℚ) - 1))
    min := qmin qs
    max := qmax qs }

/-- First maximiser of `f` (pandas `idxmax`: earliest index among ties). -/
def argmaxBy {α : Type} (f : α → Int) : List α → Option α
  | [] => none
  | x :: xs =>
      match argmaxBy f xs with
      | none => some x
      | some y => if f y > f x then some y else some x

/-! ## Chart-construction functions (dashboard.py lines 177-345)

Each Python function groups the frame it receives, aggregates `quantity` and
hands the grouped table to a plotly constructor.  The embedding keeps the
grouped data (the plotly figure object itself is presentation only). -/

/-- `create_sales_by_location` (lines 177-195): `groupby('location')['quantity'].sum()`
fed to a bar chart. -/
def create_sales_by_location (t : Table) : List (String × Int) :=
  groupby_sum (fun r => r.location) t

/-- `create_event_comparison` (lines 197-210): `groupby(['event_type','location'])['quantity'].sum()`. -/
def create_event_comparison (t : Table) : List ((String × String) × Int) :=
  groupby_sum (pairKey (fun r => r.event_type) (fun r => r.location)) t

/-- `create_product_performance` (lines 212-227): `groupby('product_type')['quantity'].sum()`
then `sort_values('quantity', ascending=True)`. -/
def create_product_performance (t : Table) : List (String × Int) :=
  List.insertionSort (fun a b => a.2 ≤ b.2) (groupby_sum (fun r => r.product_type) t)

/-- `create_top_characters` (lines 229-244): group by series and variant, add
the `full_name` column, keep the 15 largest by quantity (`nlargest(15, 'quantity')`,
`keep='first'`). -/
def create_top_characters (t : Table) : List ((String × String) × String × Int) :=
  let char_sales :=
    (groupby_sum (pairKey (fun r => r.series_character) (fun r => r.character_variant)) t).map
      (fun p => (p.1, p.1.1 ++ " - " ++ p.1.2, p.2))
  (List.insertionSort (fun a b => a.2.2 ≥ b.2.2) char_sales).take 15

/-- `create_daily_performance` (lines 300-312): `groupby(['day','event_type'])['quantity'].sum()`
fed to a pie over `day`. -/
def create_daily_performance (t : Table) : List ((String × String) × Int) :=
  groupby_sum (pairKey (fun r => r.day) (fun r => r.event_type)) t

/-! ## Sidebar filters (dashboard.py lines 356-407) -/

/-- The six sidebar selections of `main`; the string `"All"` is the
no-filter sentinel each selectbox starts from. -/
structure Selections where
  location : String
  event_type : String
  day : String
  series : String
  character : String
  product : String
deriving DecidableEq, Repr

/-- The two frame variables of `main` during the filter block:
`df` (the loaded table) and `filtered_df`. -/
structure MainState where
  df : Table
  filtered : Table
deriving DecidableEq, Repr

/-- Lines 386-407: `filtered_df = df.copy()` followed by the six conditional
filter assignments, each reassigning only `filtered_df`.  A pandas equality
comparison with a string is false on a NaN cell, so `none` never matches. -/
def applyFiltersState (st : MainState) (s : Selections) : MainState :=
  let st := { st with filtered := st.df }
  let st := if s.location ≠ "All" then
      { st with filtered := st.filtered.filter (fun r => r.location == some s.location) }
    else st
  let st := if s.event_type ≠ "All" then
      { st with filtered := st.filtered.filter (fun r => r.event_type == some s.event_type) }
    else st
  let st := if s.day ≠ "All" then
      { st with filtered := st.filtered.filter (fun r => r.day == some s.day) }
    else st
  let st := if s.series ≠ "All" then
      { st with filtered := st.filtered.filter (fun r => r.series_character == some s.series) }
    else st
  let st := if s.character ≠ "All" then
      { st with filtered := st.filtered.filter (fun r => r.character_variant == some s.character) }
    else st
  let st := if s.product ≠ "All" then
      { st with filtered := st.filtered.filter (fun r => r.product_type == some s.product) }
    else st
  st

/-- The filtered view `main` renders from: the `filtered_df` produced by the
filter block starting from the loaded table. -/
def applyFilters (df : Table) (s : Selections) : Table :=
  (applyFiltersState { df := df, filtered := df } s).filtered

/-- One selection matches one cell: either the selection is `"All"` or the
cell equals it (spec-side characterisation of one filter). -/
def matchSel (sel : String) (v : Option String) : Bool :=
  sel == "All" || v == some sel

/-- A row survives all six filters (spec-side characterisation of the whole
filter block, to be compared with `applyFilters`). -/
def rowMatches (s : Selections) (r : Row) : Bool :=
  matchSel s.location r.location && matchSel s.event_type r.event_type &&
  matchSel s.day r.day && matchSel s.series r.series_character &&
  matchSel s.character r.character_variant && matchSel s.product r.product_type

/-- The `active_filters` labels accumulated by lines 388-407. -/
def activeFilterLabels (s : Selections) : List String :=
  (if s.location ≠ "All" then ["📍 Location: " ++ s.location] else []) ++
  (if s.event_type ≠ "All" then ["🎪 Event: " ++ s.event_type] else []) ++
  (if s.day ≠ "All" then ["📅 Day: " ++ s.day] else []) ++
  (if s.series ≠ "All" then ["🎭 Series: " ++ s.series] else []) ++
  (if s.character ≠ "All" then ["👤 Character: " ++ s.character] else []) ++
  (if s.product ≠ "All" then ["🛍️ Product: " ++ s.product] else [])

/-! ## Dropdown option lists (dashboard.py lines 359-384)

`sorted(...)` only orders the entries shown in a selectbox; within the
successful case ordering is abstracted (options are kept in first-appearance
order), which leaves the set of offered choices unchanged.  Failure is not
abstracted: on a distinct-value list mixing a NaN float with a string,
`sorted` compares the NaN against a string and raises `TypeError`, so the
script crashes and no option list is built; the four unguarded dropdowns
therefore return `Option (List Choice)`, `none` being the `TypeError` path.
The series/variant dropdowns filter missing values out before sorting, so
their `sorted` input is all strings and they never fail. -/

/-- One entry of a selectbox option list: the `'All'` sentinel, a string
value, or a missing value (a NaN float carried into the Python list). -/
inductive Choice where
  | all : Choice
  | str (s : String) : Choice
  | missing : Choice
deriving DecidableEq, Repr

/-- A column value as a selectbox entry. -/
def toChoice : Option String → Choice
  | none => Choice.missing
  | some s => Choice.str s

/-- The distinct values of a column (`df[col].unique()`), missing included,
in order of first appearance. -/
def uniqueVals (col : Row → Option String) (t : Table) : List (Option String) :=
  (t.map col).dedup

/-- The Python guard `if x and str(x) != 'nan'` of lines 371/377/379: a NaN
float is truthy but prints as `'nan'`, so missing values are dropped; the
empty string is falsy and the literal text `'nan'` also fails the guard. -/
def keepVal : Option String → Bool
  | none => false
  | some s => !(s == "") && !(s == "nan")

/-- `['All'] + sorted(list(vals))` for a distinct-value list `vals` with no
missing-value guard.  Sorting a list of two or more elements compares every
element at least once, so when `vals` holds a NaN together with any string
(the list is deduplicated, so two or more elements with a `none` among them
means exactly that) the comparison `float < str` raises `TypeError` and no
option list exists — the `none` result.  A one-element list (a lone NaN
included) is returned by `sorted` without any comparison. -/
def plainOptions (vals : List (Option String)) : Option (List Choice) :=
  if none ∈ vals ∧ 2 ≤ vals.length then none
  else some (Choice.all :: vals.map toChoice)

/-- Line 359: `['All'] + sorted(list(df['location'].unique()))` — no
missing-value guard; `none` when `sorted` raises `TypeError`. -/
def locationOptions (t : Table) : Option (List Choice) :=
  plainOptions (uniqueVals (fun r => r.location) t)

/-- Line 363: event-type options — no missing-value guard; `none` when
`sorted` raises `TypeError`. -/
def eventTypeOptions (t : Table) : Option (List Choice) :=
  plainOptions (uniqueVals (fun r => r.event_type) t)

/-- Line 367: day options — no missing-value guard; `none` when `sorted`
raises `TypeError`. -/
def dayOptions (t : Table) : Option (List Choice) :=
  plainOptions (uniqueVals (fun r => r.day) t)

/-- Line 383: product-type options — no missing-value guard; `none` when
`sorted` raises `TypeError`. -/
def productOptions (t : Table) : Option (List Choice) :=
  plainOptions (uniqueVals (fun r => r.product_type) t)

/-- Line 371: series options, guarded by `if x and str(x) != 'nan'`. -/
def seriesOptions (t : Table) : List Choice :=
  Choice.all :: ((uniqueVals (fun r => r.series_character) t).filter keepVal).map toChoice

/-- Lines 374-380: character-variant options; when a specific series is
selected the variants are taken from the rows of that series only. -/
def variantOptions (t : Table) (selectedSeries : String) : List Choice :=
  if selectedSeries ≠ "All" then
    Choice.all ::
      ((uniqueVals (fun r => r.character_variant)
          (t.filter (fun r => r.series_character == some selectedSeries))).filter keepVal).map
        toChoice
  else
    Choice.all :: ((uniqueVals (fun r => r.character_variant) t).filter keepVal).map toChoice

/-! ## Loading (dashboard.py lines 43-65) -/

/-- Row `i` of the sample frame of `load_data`'s `except` branch: the Python
dict builds each column as a 3-element list repeated 50 times, so row `i`
takes entry `i % 3` of the pattern; `q` is `quantity[i]`, drawn by
`np.random.randint(1, 20, 150)`. -/
def sampleRow (i : Nat) (q : Nat) : Row :=
  if i % 3 = 0 then
    { sheet_name := some "MEGA LDN SAT", location := some "London", day := some "Saturday"
      event_type := some "Mega", series_character := some "JJK"
      character_variant := some "Fish", product_type := some "Bag", quantity := (q : Int) }
  else if i % 3 = 1 then
    { sheet_name := some "MEGA LDN SUN", location := some "London", day := some "Sunday"
      event_type := some "Mega", series_character := some "Frieren"
      character_variant := some "Frieren", product_type := some "Keyring", quantity := (q : Int) }
  else
    { sheet_name := some "AL LDN SAT", location := some "London", day := some "Saturday"
      event_type := some "AL", series_character := some "ACNH"
      character_variant := some "Blathers", product_type := some "Pin", quantity := (q : Int) }

/-- The 150-row sample frame (lines 53-63); `randoms i` is the `i`-th output
of `np.random.randint(1, 20, 150)`, a natural number. -/
def sampleData (randoms : Nat → Nat) : Table :=
  (List.range 150).map (fun i => sampleRow i (randoms i))

/-- `load_data` (lines 43-65).  `fileExists` is whether
`cleaned_convention_sales_data.csv` opens; `fileContent` is the table
`pd.read_csv` would produce from it (read back verbatim, no validation);
`randoms` feeds the sample generator.  The second component collects the
user-visible `st.error` / `st.warning` messages. -/
def load_data (fileExists : Bool) (fileContent : Table) (randoms : Nat → Nat) :
    Table × List String :=
  if fileExists then
    (fileContent, [])
  else
    (sampleData randoms,
      ["❌ CSV file not found! Please make sure 'cleaned_convention_sales_data.csv' is in the same directory as this script.",
       "⚠️ Using sample data for demonstration. Please upload your actual CSV file."])

/-! ## Serialization and downloads (dashboard.py lines 500-521) -/

/-- A cell as written by `to_csv` (missing values serialize as empty). -/
def cellStr : Option String → String
  | none => ""
  | some s => s

/-- `filtered_df.to_csv(index=False)`: every row of the frame, in order, as
its list of cells in column order (quoting/escaping of the CSV text layer is
abstracted; the content is the full cell matrix). -/
def to_csv (t : Table) : List (List String) :=
  t.map (fun r =>
    [cellStr r.sheet_name, cellStr r.location, cellStr r.day, cellStr r.event_type,
     cellStr r.series_character, cellStr r.character_variant, cellStr r.product_type,
     toString r.quantity])

/-- Lines 511-513: `filtered_df.groupby(['location','event_type'])['quantity']
.agg(['sum','mean','std','min','max'])`. -/
def summary_stats (t : Table) : List ((String × String) × QuantityStats) :=
  (groupByKey (pairKey (fun r => r.location) (fun r => r.event_type)) t).map
    (fun p => (p.1, aggStats p.2))

/-- The contents of the two download buttons (lines 500-521), generated from
the filtered view. -/
def mainDownloads (df : Table) (s : Selections) :
    List (List String) × List ((String × String) × QuantityStats) :=
  let filtered := applyFilters df s
  (to_csv filtered, summary_stats filtered)

/-! ## Overview metrics (dashboard.py lines 67-175) -/

/-- `df[col].nunique()`: distinct non-missing values (pandas `nunique`
drops NaN). -/
def nuniqueBy (col : Row → Option String) (t : Table) : Nat :=
  ((t.filterMap col).dedup).length

/-- The numbers rendered by `create_overview_metrics` (lines 67-175): the five
metric cards, the top-location card data (`groupby('location')['quantity'].sum()`
plus `idxmax`/`max`), and the regional table (sum, mean, count, product and
series `nunique` per location, sorted by total descending). -/
structure OverviewMetrics where
  total_sales : Int
  unique_events : Nat
  unique_series : Nat
  avg_sales : ℚ
  unique_products : Nat
  location_sales : List (String × Int)
  top_location : Option (String × Int)
  regional_stats : List (String × Int × ℚ × Nat × Nat × Nat)
deriving DecidableEq, Repr

/-- `create_overview_metrics` as data (the treemap card for the top character
and styling are presentation; the top-location card is kept because claim
sources point at it). -/
def create_overview_metrics (t : Table) : OverviewMetrics :=
  let location_sales := groupby_sum (fun r => r.location) t
  { total_sales := (t.map (fun r => r.quantity)).sum
    unique_events := nuniqueBy (fun r => r.sheet_name) t
    unique_series := nuniqueBy (fun r => r.series_character) t
    avg_sales := qmean (t.map (fun r => r.quantity))
    unique_products := nuniqueBy (fun r => r.product_type) t
    location_sales := location_sales
    top_location := argmaxBy (fun p => p.2) location_sales
    regional_stats :=
      List.insertionSort (fun a b => a.2.1 ≥ b.2.1)
        ((groupKeys (fun r => r.location) t).map (fun k =>
          let rows := groupRows (fun r => r.location) t k
          (k, (rows.map (fun r => r.quantity)).sum,
            qmean (rows.map (fun r => r.quantity)),
            rows.length,
            nuniqueBy (fun r => r.product_type) rows,
            nuniqueBy (fun r => r.series_character) rows))) }

/-! ## Character / detailed analysis sections (dashboard.py lines 246-345) -/

/-- Three-column group key (`groupby(['series_character','character_variant',
'product_type'])`); pandas drops a row whenever any key is missing. -/
def tripleKey (r : Row) : Option (String × String × String) :=
  match r.series_character, r.character_variant, r.product_type with
  | some a, some b, some c => some (a, b, c)
  | _, _, _ => none

/-- The `char_analysis` frame of lines 251-258: per (series, variant) group
the quantity sum, mean and count, plus the joined distinct locations and
product types, sorted by total descending. -/
def charAnalysisRows (t : Table) :
    List ((String × String) × Int × ℚ × Nat × String × String) :=
  List.insertionSort (fun a b => a.2.1 ≥ b.2.1)
    (((t.filterMap
        (pairKey (fun r => r.series_character) (fun r => r.character_variant))).dedup).map
      (fun k =>
        let rows := groupRows
          (pairKey (fun r => r.series_character) (fun r => r.character_variant)) t k
        (k, (rows.map (fun r => r.quantity)).sum,
          qmean (rows.map (fun r => r.quantity)),
          rows.length,
          String.intercalate ", " ((rows.filterMap (fun r => r.location)).dedup),
          String.intercalate ", " ((rows.filterMap (fun r => r.product_type)).dedup))))

/-- Line 285: the first 8 distinct series of the sorted `char_analysis` index. -/
def topCharsList (t : Table) : List String :=
  (((charAnalysisRows t).map (fun p => p.1.1)).dedup).take 8

/-! ## Rendered output

A Streamlit rendering step becomes one `Output` value; each chart carries the
grouped data its plotly figure is built from. -/

/-- The data behind each plotly figure of the dashboard. -/
inductive Chart where
  | salesByLocation (data : List (String × Int))
  | dailyPerformance (data : List ((String × String) × Int))
  | eventComparison (data : List ((String × String) × Int))
  | productPerformance (data : List (String × Int))
  | topCharacters (data : List ((String × String) × String × Int))
  | charLocationHeatmap (data : List ((String × String) × Int))
  | charProductBar (data : List ((String × String) × Int))
  | seriesPie (data : List (String × Int))
  | productSunburst (data : List ((String × String) × Int))
deriving DecidableEq, Repr

/-- One user-visible rendering step of `main` (after the filter block). -/
inductive Output where
  | info (msg : String)
  | success (msg : String)
  | warning (msg : String)
  | metrics (m : OverviewMetrics)
  | chart (c : Chart)
  | analysisTable (data : List ((String × String) × Int × ℚ × Nat × String × String))
  | table (data : List (List String))
  | qualityMetric (label : String) (value : Nat)
  | downloadFiltered (rows : List (List String))
  | downloadSummary (stats : List ((String × String) × QuantityStats))
deriving DecidableEq, Repr

/-- `create_character_analysis` (lines 246-298): the top-15 table, the
location heatmap data, and the product distribution for the top-8 series
(`isin` is false on a missing series, so such rows are dropped). -/
def create_character_analysis (t : Table) : List Output :=
  [Output.analysisTable ((charAnalysisRows t).take 15),
   Output.chart (Chart.charLocationHeatmap
     (groupby_sum (pairKey (fun r => r.location) (fun r => r.series_character)) t)),
   Output.chart (Chart.charProductBar
     (groupby_sum (pairKey (fun r => r.series_character) (fun r => r.product_type))
       (t.filter (fun r =>
         match r.series_character with
         | some sc => (topCharsList t).contains sc
         | none => false))))]

/-- `create_detailed_analysis` (lines 314-345): top-10 series donut data and
the product/event sunburst data. -/
def create_detailed_analysis (t : Table) : List Output :=
  [Output.chart (Chart.seriesPie
     ((List.insertionSort (fun a b => a.2 ≥ b.2)
        (groupby_sum (fun r => r.series_character) t)).take 10)),
   Output.chart (Chart.productSunburst
     (groupby_sum (pairKey (fun r => r.product_type) (fun r => r.event_type)) t))]

/-- The body of `main` from line 409 on: the active-filter banner, the
empty-result guard (lines 417-420, `st.warning` + `st.stop()`), and — only
when the filtered view is non-empty — the metric cards, the five main charts,
the analysis sections, the data-quality metrics, the raw-data table and the
two download buttons.  (The static page header and the explanatory expander
text are presentation only.) -/
def mainRender (df : Table) (s : Selections) : List Output :=
  let filtered := applyFilters df s
  let labels := activeFilterLabels s
  let filterNote :=
    if labels.isEmpty then [Output.success "📊 Showing all data - no filters applied"]
    else [Output.info (String.intercalate " | " labels)]
  if filtered.isEmpty then
    filterNote ++
      [Output.warning "⚠️ No data matches your current filter selection. Please adjust your filters."]
  else
    filterNote ++
    [Output.metrics (create_overview_metrics filtered),
     Output.chart (Chart.salesByLocation (create_sales_by_location filtered)),
     Output.chart (Chart.dailyPerformance (create_daily_performance filtered)),
     Output.chart (Chart.eventComparison (create_event_comparison filtered)),
     Output.chart (Chart.productPerformance (create_product_performance filtered)),
     Output.chart (Chart.topCharacters (create_top_characters filtered))] ++
    create_character_analysis filtered ++
    create_detailed_analysis filtered ++
    [Output.qualityMetric "Missing Character Names"
       (filtered.filter (fun r => r.character_variant = none)).length,
     Output.qualityMetric "Zero Quantity Records"
       (filtered.filter (fun r => r.quantity = 0)).length,
     Output.qualityMetric "Unique Items" ((filtered.filterMap tripleKey).dedup).length,
     Output.table (to_csv filtered),
     Output.downloadFiltered (to_csv filtered),
     Output.downloadSummary (summary_stats filtered)]

/-- Outputs that render dashboard content (metrics, charts, tables,
downloads), as opposed to status banners. -/
def rendersContent : Output → Bool
  | Output.info _ => false
  | Output.success _ => false
  | Output.warning _ => false
  | _ => true

/-! ## Helper lemmas about the filter pipeline -/

/-- One conditional filter step of lines 390-407, as a function. -/
def filterStep (sel : String) (col : Row → Option String) (t : Table) : Table :=
  if sel ≠ "All" then t.filter (fun r => col r == some sel) else t

theorem filterStep_matchSel (sel : String) (col : Row → Option String) (t : Table) :
    filterStep sel col t = t.filter (fun r => matchSel sel (col r)) := by
  by_cases h : sel = "All"
  · simp [filterStep, h, matchSel]
  · rw [filterStep, if_pos h]
    exact List.filter_congr (fun r _ => by simp [matchSel, h])

theorem applyFilters_steps (df : Table) (s : Selections) :
    applyFilters df s =
      filterStep s.product (fun r => r.product_type)
        (filterStep s.character (fun r => r.character_variant)
          (filterStep s.series (fun r => r.series_character)
            (filterStep s.day (fun r => r.day)
              (filterStep s.event_type (fun r => r.event_type)
                (filterStep s.location (fun r => r.location) df))))) := by
  simp only [applyFilters, applyFiltersState, filterStep, apply_ite MainState.filtered]

theorem applyFilters_eq_filter (df : Table) (s : Selections) :
    applyFilters df s = df.filter (fun r => rowMatches s r) := by
  rw [applyFilters_steps, filterStep_matchSel, filterStep_matchSel, filterStep_matchSel,
    filterStep_matchSel, filterStep_matchSel, filterStep_matchSel]
  simp only [List.filter_filter]
  refine List.filter_congr (fun r _ => ?_)
  cases h1 : matchSel s.location r.location <;>
    cases h2 : matchSel s.event_type r.event_type <;>
    cases h3 : matchSel s.day r.day <;>
    cases h4 : matchSel s.series r.series_character <;>
    cases h5 : matchSel s.character r.character_variant <;>
    cases h6 : matchSel s.product r.product_type <;>
    simp [rowMatches, h1, h2, h3, h4, h5, h6]

/-! ## Witness data: a small concrete table and selections -/

def wRow1 : Row :=
  { sheet_name := some "S1", location := some "London", day := some "Saturday"
    event_type := some "Mega", series_character := some "JJK"
    character_variant := some "Fish", product_type := some "Bag", quantity := 3 }

def wRow2 : Row :=
  { sheet_name := some "S2", location := some "London", day := some "Sunday"
    event_type := some "Mega", series_character := some "JJK"
    character_variant := some "Gojo", product_type := some "Pin", quantity := 4 }

def wRow3 : Row :=
  { sheet_name := some "S3", location := some "Manchester", day := some "Saturday"
    event_type := some "AL", series_character := some "Frieren"
    character_variant := none, product_type := some "Keyring", quantity := 5 }

def wTable : Table := [wRow1, wRow2, wRow3]

/-- All six selectboxes on their `'All'` default. -/
def allSel : Selections :=
  { location := "All", event_type := "All", day := "All"
    series := "All", character := "All", product := "All" }

/-- A selection no row of `wTable` can match. -/
def parisSel : Selections :=
  { location := "Paris", event_type := "All", day := "All"
    series := "All", character := "All", product := "All" }

/-! ## Claim theorems -/

/-- C1: for every table and every value `g` of the location column, the
grouped total `create_sales_by_location` computes for group `g`
(`groupby('location')['quantity'].sum()`) equals the sum of the quantities of
exactly the rows whose location equals `g`. -/
theorem claim_C1_grouped_location_sum (t : Table) (g : String)
    (h : ∃ r ∈ t, r.location = some g) :
    lookupG (create_sales_by_location t) g
      = some (((t.filter (fun r => decide (r.location = some g))).map
          (fun r => r.quantity)).sum) := by
  have hne : matchingQuantities (fun r => r.location) t g ≠ [] := by
    obtain ⟨r, hr, hloc⟩ := h
    have hmem : r ∈ t.filter (fun r => decide (r.location = some g)) :=
      List.mem_filter.2 ⟨hr, by simp [hloc]⟩
    intro hmq
    rw [matchingQuantities, List.map_eq_nil_iff] at hmq
    rw [hmq] at hmem
    exact absurd hmem (List.not_mem_nil r)
  rw [create_sales_by_location, groupby_sum, lookupG_map_val,
    lookupG_groupByKey _ _ _ hne]
  rfl

theorem claim_C1_grouped_location_sum_witness :
    (∃ r ∈ wTable, r.location = some "London")
    ∧ lookupG (create_sales_by_location wTable) "London"
        = some (((wTable.filter (fun r => decide (r.location = some "London"))).map
            (fun r => r.quantity)).sum) :=
  ⟨by decide, claim_C1_grouped_location_sum wTable "London" (by decide)⟩

/-- C2: the filtered view `main` builds is exactly the rows matching every
selection that is not `'All'` (each active filter an equality test on its
column), and with all six selections on `'All'` the filtered view is the
whole table. -/
theorem claim_C2_filtered_view (df : Table) (s : Selections) :
    applyFilters df s = df.filter (fun r => rowMatches s r)
    ∧ (s.location = "All" ∧ s.event_type = "All" ∧ s.day = "All" ∧ s.series = "All"
        ∧ s.character = "All" ∧ s.product = "All" → applyFilters df s = df) := by
  refine ⟨applyFilters_eq_filter df s, fun hall => ?_⟩
  obtain ⟨h1, h2, h3, h4, h5, h6⟩ := hall
  rw [applyFilters_eq_filter df s]
  have : ∀ r ∈ df, rowMatches s r = true := by
    intro r _
    simp [rowMatches, matchSel, h1, h2, h3, h4, h5, h6]
  rw [List.filter_congr this, List.filter_true]

theorem claim_C2_filtered_view_witness :
    applyFilters wTable allSel = wTable.filter (fun r => rowMatches allSel r)
    ∧ applyFilters wTable allSel = wTable :=
  ⟨(claim_C2_filtered_view wTable allSel).1,
   (claim_C2_filtered_view wTable allSel).2 ⟨rfl, rfl, rfl, rfl, rfl, rfl⟩⟩

/-- C6: the loaded table is never modified: the filter block of `main` only
reassigns `filtered_df` (starting from `df.copy()`), so the `df` component of
the state is unchanged and the filtered component is a freshly derived view
of it. -/
theorem claim_C6_source_unchanged (st : MainState) (s : Selections) :
    (applyFiltersState st s).df = st.df
    ∧ (applyFiltersState st s).filtered = applyFilters st.df s := by
  constructor
  · simp only [applyFiltersState, apply_ite MainState.df]
    split <;> split <;> split <;> split <;> split <;> split <;> rfl
  · cases st
    rfl

/-- C7: each chart-construction function is a pure function of the table it
receives: it is defined as a closed transformation with no other state, so
two calls on equal tables yield equal chart data. -/
theorem claim_C7_charts_deterministic (t1 t2 : Table) (h : t1 = t2) :
    create_sales_by_location t1 = create_sales_by_location t2
    ∧ create_event_comparison t1 = create_event_comparison t2
    ∧ create_product_performance t1 = create_product_performance t2
    ∧ create_top_characters t1 = create_top_characters t2
    ∧ create_daily_performance t1 = create_daily_performance t2 := by
  subst h
  exact ⟨rfl, rfl, rfl, rfl, rfl⟩

theorem claim_C7_charts_deterministic_witness :
    wTable = wTable
    ∧ (create_sales_by_location wTable = create_sales_by_location wTable
        ∧ create_event_comparison wTable = create_event_comparison wTable
        ∧ create_product_performance wTable = create_product_performance wTable
        ∧ create_top_characters wTable = create_top_characters wTable
        ∧ create_daily_performance wTable = create_daily_performance wTable) :=
  ⟨rfl, claim_C7_charts_deterministic wTable wTable rfl⟩

/-- C3: when the filter selection leaves zero rows, `main` emits the warning
banner and stops (`st.stop()`, lines 417-420): the output stream contains the
warning and no metrics, chart, table or download output at all. -/
theorem claim_C3_empty_filter_halts (df : Table) (s : Selections)
    (h : applyFilters df s = []) :
    Output.warning "⚠️ No data matches your current filter selection. Please adjust your filters."
        ∈ mainRender df s
    ∧ ∀ o ∈ mainRender df s, rendersContent o = false := by
  have hmr : mainRender df s =
      (if (activeFilterLabels s).isEmpty then
        [Output.success "📊 Showing all data - no filters applied"]
       else [Output.info (String.intercalate " | " (activeFilterLabels s))]) ++
      [Output.warning "⚠️ No data matches your current filter selection. Please adjust your filters."] := by
    simp [mainRender, h]
  rw [hmr]
  by_cases hl : (activeFilterLabels s).isEmpty <;>
    simp [hl, rendersContent]

theorem claim_C3_empty_filter_halts_witness :
    applyFilters wTable parisSel = []
    ∧ (Output.warning "⚠️ No data matches your current filter selection. Please adjust your filters."
          ∈ mainRender wTable parisSel
        ∧ ∀ o ∈ mainRender wTable parisSel, rendersContent o = false) :=
  ⟨by decide, claim_C3_empty_filter_halts wTable parisSel (by decide)⟩

/-- C4: with the CSV file present `load_data` returns the table read from it;
with the file missing it returns the generated 150-row sample table (fixed
categorical values, quantities from the random draw) and shows a
user-visible warning. -/
theorem claim_C4_load_data (fc : Table) (randoms : Nat → Nat) :
    load_data true fc randoms = (fc, [])
    ∧ (load_data false fc randoms).1 = sampleData randoms
    ∧ (sampleData randoms).length = 150
    ∧ "⚠️ Using sample data for demonstration. Please upload your actual CSV file."
        ∈ (load_data false fc randoms).2
    ∧ ∀ row ∈ sampleData randoms,
        row.location = some "London"
        ∧ (row.day = some "Saturday" ∨ row.day = some "Sunday")
        ∧ (row.event_type = some "Mega" ∨ row.event_type = some "AL") := by
  refine ⟨rfl, rfl, by simp [sampleData], by simp [load_data], ?_⟩
  intro row hrow
  rw [sampleData] at hrow
  obtain ⟨i, hi, hrow⟩ := List.mem_map.1 hrow
  subst hrow
  by_cases h0 : i % 3 = 0
  · simp [sampleRow, h0]
  · by_cases h1 : i % 3 = 1 <;> simp [sampleRow, h0, h1]

theorem claim_C4_load_data_witness :
    sampleRow 0 5 ∈ sampleData (fun _ => 5)
    ∧ ((sampleRow 0 5).location = some "London"
        ∧ ((sampleRow 0 5).day = some "Saturday" ∨ (sampleRow 0 5).day = some "Sunday")
        ∧ ((sampleRow 0 5).event_type = some "Mega" ∨ (sampleRow 0 5).event_type = some "AL")) :=
  ⟨by decide,
   (claim_C4_load_data wTable (fun _ => 5)).2.2.2.2 (sampleRow 0 5) (by decide)⟩

/-! ## Helper lemmas about dropdown option lists -/

theorem keepVal_some_iff (s : String) :
    keepVal (some s) = true ↔ s ≠ "" ∧ s ≠ "nan" := by
  simp [keepVal]

theorem mem_plain_options (col : Row → Option String) (t : Table) (c : Choice) :
    c ∈ Choice.all :: (uniqueVals col t).map toChoice
      ↔ c = Choice.all ∨ ∃ v ∈ t.map col, toChoice v = c := by
  simp [uniqueVals, List.mem_dedup]

theorem mem_clean_options (col : Row → Option String) (t : Table) (c : Choice) :
    c ∈ Choice.all :: ((uniqueVals col t).filter keepVal).map toChoice
      ↔ c = Choice.all ∨ ∃ s : String,
          some s ∈ t.map col ∧ s ≠ "" ∧ s ≠ "nan" ∧ c = Choice.str s := by
  simp only [List.mem_cons, List.mem_map, List.mem_filter, uniqueVals, List.mem_dedup]
  constructor
  · rintro (h | ⟨v, ⟨hv, hk⟩, rfl⟩)
    · exact Or.inl h
    · cases v with
      | none => simp [keepVal] at hk
      | some s =>
          rw [keepVal_some_iff] at hk
          exact Or.inr ⟨s, hv, hk.1, hk.2, rfl⟩
  · rintro (h | ⟨s, hv, h1, h2, rfl⟩)
    · exact Or.inl h
    · exact Or.inr ⟨some s, ⟨hv, (keepVal_some_iff s).2 ⟨h1, h2⟩⟩, rfl⟩

/-- A list holding two unequal elements has at least two elements. -/
theorem two_le_length_of_mem_ne {α : Type} {a b : α} {l : List α}
    (ha : a ∈ l) (hb : b ∈ l) (hab : a ≠ b) : 2 ≤ l.length := by
  cases l with
  | nil => exact absurd ha (List.not_mem_nil a)
  | cons x l' =>
      cases l' with
      | nil =>
          rw [List.mem_singleton] at ha hb
          exact absurd (ha.trans hb.symm) hab
      | cons y rest => simp [List.length_cons]

/-- A duplicate-free list of at least two elements has an element different
from any given one. -/
theorem exists_mem_ne {α : Type} {l : List α} (hnd : l.Nodup) (h2 : 2 ≤ l.length)
    (a : α) : ∃ b ∈ l, b ≠ a := by
  cases l with
  | nil => simp at h2
  | cons x l' =>
      cases l' with
      | nil => simp at h2
      | cons y rest =>
          by_cases hx : x = a
          · subst hx
            refine ⟨y, by simp, ?_⟩
            intro h
            exact (List.nodup_cons.1 hnd).1 (List.mem_cons.2 (Or.inl h.symm))
          · exact ⟨x, List.mem_cons_self x _, hx⟩

/-- The unguarded option builder fails exactly when the column has a missing
value alongside some string value (the `sorted` `TypeError` of lines
359/363/367/383). -/
theorem plainOptions_eq_none_iff (col : Row → Option String) (t : Table) :
    plainOptions (uniqueVals col t) = none ↔
      none ∈ t.map col ∧ ∃ v : String, some v ∈ t.map col := by
  rw [plainOptions]
  constructor
  · intro h
    by_cases hc : none ∈ uniqueVals col t ∧ 2 ≤ (uniqueVals col t).length
    · obtain ⟨hn, h2⟩ := hc
      obtain ⟨b, hb, hbne⟩ := exists_mem_ne (List.nodup_dedup (t.map col)) h2
        (none : Option String)
      cases b with
      | none => exact absurd rfl hbne
      | some v => exact ⟨List.mem_dedup.1 hn, v, List.mem_dedup.1 hb⟩
    · rw [if_neg hc] at h
      exact absurd h (Option.some_ne_none _)
  · rintro ⟨hn, v, hv⟩
    have hn' : none ∈ uniqueVals col t := List.mem_dedup.2 hn
    have hv' : (some v : Option String) ∈ uniqueVals col t := List.mem_dedup.2 hv
    have h2 : 2 ≤ (uniqueVals col t).length :=
      two_le_length_of_mem_ne hn' hv' (by simp)
    rw [if_pos ⟨hn', h2⟩]

/-- When the unguarded option builder succeeds, the offered choices are
`'All'` plus exactly the distinct column values. -/
theorem plainOptions_mem (col : Row → Option String) (t : Table) (c : Choice)
    (opts : List Choice) (h : plainOptions (uniqueVals col t) = some opts) :
    c ∈ opts ↔ c = Choice.all ∨ ∃ v ∈ t.map col, toChoice v = c := by
  rw [plainOptions] at h
  by_cases hc : none ∈ uniqueVals col t ∧ 2 ≤ (uniqueVals col t).length
  · rw [if_pos hc] at h
    exact absurd h (by simp)
  · rw [if_neg hc] at h
    obtain rfl := Option.some.inj h
    exact mem_plain_options col t c

/-- A one-row table whose `location` is missing (an empty CSV cell becomes
NaN under `pd.read_csv`). -/
def nanLocTable : Table :=
  [{ sheet_name := some "S", location := none, day := some "Saturday"
     event_type := some "Mega", series_character := some "JJK"
     character_variant := some "Fish", product_type := some "Bag", quantity := 1 }]

/-- A two-row table whose location column mixes a missing value with a
string. -/
def mixedLocTable : Table := nanLocTable ++ [wRow1]

/-- C5 counterexample, both failure modes of the claim at line 359.  On a
table whose only distinct location is NaN the dropdown is built (`sorted` of
a one-element list makes no comparison) and offers the missing value; on a
table whose locations mix NaN with a string, `sorted` raises `TypeError` and
no option list exists at all.  In neither case does the location dropdown
offer `'All'` plus only the non-missing distinct values. -/
theorem claim_C5_counterexample :
    locationOptions nanLocTable = some [Choice.all, Choice.missing]
    ∧ locationOptions mixedLocTable = none := by
  exact ⟨by decide, by decide⟩

/-- C5 amended: only the series and character-variant dropdowns exclude
missing values (offering `'All'` plus the distinct values that are
non-missing and neither `''` nor the literal `'nan'`).  The location,
event-type, day and product-type dropdowns have no missing-value guard:
when the column's distinct values hold a missing value together with any
string, `sorted` raises `TypeError` and no option list is offered at all;
otherwise they offer `'All'` plus every distinct value of the column —
including the missing value itself when it is the column's only distinct
value. -/
theorem claim_C5_dropdown_options (t : Table) (c : Choice) :
    ((locationOptions t = none ↔
        none ∈ t.map (fun r => r.location)
        ∧ ∃ v : String, some v ∈ t.map (fun r => r.location))
      ∧ ∀ opts, locationOptions t = some opts →
        (c ∈ opts ↔ c = Choice.all ∨ ∃ v ∈ t.map (fun r => r.location), toChoice v = c))
    ∧ ((eventTypeOptions t = none ↔
        none ∈ t.map (fun r => r.event_type)
        ∧ ∃ v : String, some v ∈ t.map (fun r => r.event_type))
      ∧ ∀ opts, eventTypeOptions t = some opts →
        (c ∈ opts ↔ c = Choice.all ∨ ∃ v ∈ t.map (fun r => r.event_type), toChoice v = c))
    ∧ ((dayOptions t = none ↔
        none ∈ t.map (fun r => r.day)
        ∧ ∃ v : String, some v ∈ t.map (fun r => r.day))
      ∧ ∀ opts, dayOptions t = some opts →
        (c ∈ opts ↔ c = Choice.all ∨ ∃ v ∈ t.map (fun r => r.day), toChoice v = c))
    ∧ ((productOptions t = none ↔
        none ∈ t.map (fun r => r.product_type)
        ∧ ∃ v : String, some v ∈ t.map (fun r => r.product_type))
      ∧ ∀ opts, productOptions t = some opts →
        (c ∈ opts ↔ c = Choice.all ∨ ∃ v ∈ t.map (fun r => r.product_type), toChoice v = c))
    ∧ (c ∈ seriesOptions t
      ↔ c = Choice.all ∨ ∃ s : String,
          some s ∈ t.map (fun r => r.series_character)
          ∧ s ≠ "" ∧ s ≠ "nan" ∧ c = Choice.str s)
    ∧ (c ∈ variantOptions t "All"
      ↔ c = Choice.all ∨ ∃ s : String,
          some s ∈ t.map (fun r => r.character_variant)
          ∧ s ≠ "" ∧ s ≠ "nan" ∧ c = Choice.str s) := by
  refine ⟨⟨plainOptions_eq_none_iff _ t, fun opts h => plainOptions_mem _ t c opts h⟩,
    ⟨plainOptions_eq_none_iff _ t, fun opts h => plainOptions_mem _ t c opts h⟩,
    ⟨plainOptions_eq_none_iff _ t, fun opts h => plainOptions_mem _ t c opts h⟩,
    ⟨plainOptions_eq_none_iff _ t, fun opts h => plainOptions_mem _ t c opts h⟩,
    mem_clean_options _ t c, ?_⟩
  rw [variantOptions, if_neg (fun h => h rfl)]
  exact mem_clean_options _ t c

theorem claim_C5_dropdown_options_witness :
    locationOptions wTable = some [Choice.all, Choice.str "London", Choice.str "Manchester"]
    ∧ (Choice.str "London" ∈ [Choice.all, Choice.str "London", Choice.str "Manchester"]
        ↔ Choice.str "London" = Choice.all
          ∨ ∃ v ∈ wTable.map (fun r => r.location), toChoice v = Choice.str "London") :=
  ⟨by decide,
   (claim_C5_dropdown_options wTable (Choice.str "London")).1.2
     [Choice.all, Choice.str "London", Choice.str "Manchester"] (by decide)⟩

/-- C10: the character-variant dropdown follows the series selection
(lines 374-380): with a specific series selected it offers `'All'` plus
exactly the non-missing distinct variants of that series' rows; with the
series on `'All'` it offers `'All'` plus all non-missing distinct variants.
The hypothesis records that no variant cell holds the literal text `''` or
`'nan'` — `pd.read_csv` turns both into NaN, and the sample data has
neither, so every table `load_data` can produce satisfies it. -/
theorem claim_C10_variant_options (t : Table) (sel : String) (c : Choice)
    (hclean : ∀ r ∈ t, r.character_variant ≠ some "" ∧ r.character_variant ≠ some "nan") :
    (sel ≠ "All" →
      (c ∈ variantOptions t sel ↔
        c = Choice.all ∨ ∃ s : String,
          (∃ r ∈ t, r.series_character = some sel ∧ r.character_variant = some s)
          ∧ c = Choice.str s))
    ∧ (c ∈ variantOptions t "All" ↔
        c = Choice.all ∨ ∃ s : String,
          (∃ r ∈ t, r.character_variant = some s) ∧ c = Choice.str s) := by
  constructor
  · intro hsel
    rw [variantOptions, if_pos hsel]
    constructor
    · intro hc
      rcases (mem_clean_options (fun r => r.character_variant)
          (t.filter (fun r => r.series_character == some sel)) c).1 hc with
        h | ⟨s, hmem, h1, h2, rfl⟩
      · exact Or.inl h
      · rcases List.mem_map.1 hmem with ⟨r, hr, hv⟩
        rcases List.mem_filter.1 hr with ⟨hrt, hser⟩
        exact Or.inr ⟨s, ⟨r, hrt, by simpa using hser, hv⟩, rfl⟩
    · rintro (h | ⟨s, ⟨r, hrt, hser, hvar⟩, rfl⟩)
      · exact (mem_clean_options (fun r => r.character_variant)
          (t.filter (fun r => r.series_character == some sel)) _).2 (Or.inl h)
      · have h12 := hclean r hrt
        refine (mem_clean_options (fun r => r.character_variant)
          (t.filter (fun r => r.series_character == some sel)) _).2
          (Or.inr ⟨s, ?_, ?_, ?_, rfl⟩)
        · exact List.mem_map.2 ⟨r, List.mem_filter.2 ⟨hrt, by simp [hser]⟩, hvar⟩
        · intro hs; subst hs; exact h12.1 hvar
        · intro hs; subst hs; exact h12.2 hvar
  · rw [variantOptions, if_neg (fun h => h rfl)]
    constructor
    · intro hc
      rcases (mem_clean_options (fun r => r.character_variant) t c).1 hc with
        h | ⟨s, hmem, h1, h2, rfl⟩
      · exact Or.inl h
      · rcases List.mem_map.1 hmem with ⟨r, hr, hv⟩
        exact Or.inr ⟨s, ⟨r, hr, hv⟩, rfl⟩
    · rintro (h | ⟨s, ⟨r, hrt, hvar⟩, rfl⟩)
      · exact (mem_clean_options (fun r => r.character_variant) t _).2 (Or.inl h)
      · have h12 := hclean r hrt
        refine (mem_clean_options (fun r => r.character_variant) t _).2
          (Or.inr ⟨s, List.mem_map.2 ⟨r, hrt, hvar⟩, ?_, ?_, rfl⟩)
        · intro hs; subst hs; exact h12.1 hvar
        · intro hs; subst hs; exact h12.2 hvar

theorem claim_C10_variant_options_witness :
    (∀ r ∈ wTable, r.character_variant ≠ some "" ∧ r.character_variant ≠ some "nan")
    ∧ (Choice.str "Fish" ∈ variantOptions wTable "JJK" ↔
        Choice.str "Fish" = Choice.all ∨ ∃ s : String,
          (∃ r ∈ wTable, r.series_character = some "JJK" ∧ r.character_variant = some s)
          ∧ Choice.str "Fish" = Choice.str s) :=
  ⟨by decide,
   (claim_C10_variant_options wTable "JJK" (Choice.str "Fish") (by decide)).1 (by decide)⟩

/-! ## Helper lemma for two-column group keys -/

theorem pairKey_eq_some (c1 c2 : Row → Option String) (r : Row) (k : String × String) :
    pairKey c1 c2 r = some k ↔ c1 r = some k.1 ∧ c2 r = some k.2 := by
  obtain ⟨a, b⟩ := k
  cases h1 : c1 r <;> cases h2 : c2 r <;> simp [pairKey, h1, h2]

/-- C8: both downloads are generated from the current filtered view: the
filtered-rows CSV serializes exactly the rows of the filtered view, and the
summary CSV holds, for each `(location, event_type)` group of the filtered
view, the sum/mean/std/min/max aggregate of the quantities of exactly that
group's rows. -/
theorem claim_C8_downloads (df : Table) (s : Selections) (k : String × String)
    (h : ∃ r ∈ applyFilters df s, r.location = some k.1 ∧ r.event_type = some k.2) :
    (mainDownloads df s).1 = to_csv (applyFilters df s)
    ∧ lookupG (mainDownloads df s).2 k
        = some (aggStats (((applyFilters df s).filter
            (fun r => decide (r.location = some k.1 ∧ r.event_type = some k.2))).map
            (fun r => r.quantity))) := by
  refine ⟨rfl, ?_⟩
  have hmatch : matchingQuantities (pairKey (fun r => r.location) (fun r => r.event_type))
        (applyFilters df s) k
      = ((applyFilters df s).filter
          (fun r => decide (r.location = some k.1 ∧ r.event_type = some k.2))).map
          (fun r => r.quantity) := by
    rw [matchingQuantities]
    congr 1
    refine List.filter_congr (fun r _ => ?_)
    exact decide_eq_decide.2 (pairKey_eq_some _ _ r k)
  have hne : matchingQuantities (pairKey (fun r => r.location) (fun r => r.event_type))
      (applyFilters df s) k ≠ [] := by
    obtain ⟨r, hr, h1, h2⟩ := h
    have hmem : r ∈ (applyFilters df s).filter
        (fun r => decide (r.location = some k.1 ∧ r.event_type = some k.2)) :=
      List.mem_filter.2 ⟨hr, by simp [h1, h2]⟩
    rw [hmatch]
    intro hmq
    rw [List.map_eq_nil_iff] at hmq
    rw [hmq] at hmem
    exact absurd hmem (List.not_mem_nil r)
  have h2' : (mainDownloads df s).2 = summary_stats (applyFilters df s) := rfl
  rw [h2', summary_stats, lookupG_map_val, lookupG_groupByKey _ _ _ hne, Option.map_some',
    hmatch]

theorem claim_C8_downloads_witness :
    (∃ r ∈ applyFilters wTable allSel, r.location = some "London" ∧ r.event_type = some "Mega")
    ∧ ((mainDownloads wTable allSel).1 = to_csv (applyFilters wTable allSel)
      ∧ lookupG (mainDownloads wTable allSel).2 ("London", "Mega")
          = some (aggStats (((applyFilters wTable allSel).filter
              (fun r => decide (r.location = some "London" ∧ r.event_type = some "Mega"))).map
              (fun r => r.quantity)))) :=
  ⟨by decide, claim_C8_downloads wTable allSel ("London", "Mega") (by decide)⟩

/-- A row with a negative quantity, as a CSV file could contain (`load_data`
reads the file back with no validation). -/
def negRow : Row :=
  { sheet_name := some "S", location := some "London", day := some "Saturday"
    event_type := some "Mega", series_character := some "JJK"
    character_variant := some "Fish", product_type := some "Bag", quantity := -1 }

/-- C9 counterexample: with the CSV file present and containing a row with
quantity `-1`, `load_data` returns that row unchanged — the loaded table
violates the claimed non-negativity invariant, which the code never checks
on the CSV path. -/
theorem claim_C9_counterexample :
    ∃ row ∈ (load_data true [negRow] (fun _ => 1)).1, row.quantity < 0 := by decide

/-! ## Helper lemmas: every groupby bucket holds only row quantities -/

theorem insertKey_mem {α : Type} [DecidableEq α]
    (acc : List (α × List Int)) (k : α) (q0 : Int) :
    ∀ p ∈ insertKey acc k q0, ∀ q ∈ p.2, (∃ p' ∈ acc, q ∈ p'.2) ∨ q = q0 := by
  induction acc with
  | nil =>
      intro p hp q hq
      simp only [insertKey, List.mem_singleton] at hp
      subst hp
      simp only [List.mem_singleton] at hq
      exact Or.inr hq
  | cons a rest ih =>
      obtain ⟨ak, aqs⟩ := a
      intro p hp q hq
      simp only [insertKey] at hp
      by_cases hk : ak = k
      · rw [if_pos hk] at hp
        rcases List.mem_cons.1 hp with rfl | hp'
        · rcases List.mem_append.1 hq with h | h
          · exact Or.inl ⟨(ak, aqs), List.mem_cons_self _ _, h⟩
          · rw [List.mem_singleton] at h
            exact Or.inr h
        · exact Or.inl ⟨p, List.mem_cons.2 (Or.inr hp'), hq⟩
      · rw [if_neg hk] at hp
        rcases List.mem_cons.1 hp with rfl | hp'
        · exact Or.inl ⟨(ak, aqs), List.mem_cons_self _ _, hq⟩
        · rcases ih p hp' q hq with ⟨p', hp'', hq'⟩ | h
          · exact Or.inl ⟨p', List.mem_cons.2 (Or.inr hp''), hq'⟩
          · exact Or.inr h

/-- Fold invariant: if a predicate holds for all quantities already in the
accumulator and for all quantities of the remaining rows, it holds for all
quantities in every bucket of the result. -/
theorem groupByKey_forall {α : Type} [DecidableEq α] (C : Int → Prop)
    (key : Row → Option α) :
    ∀ (t : Table) (acc : List (α × List Int)),
      (∀ p ∈ acc, ∀ q ∈ p.2, C q) → (∀ r ∈ t, C r.quantity) →
      ∀ p ∈ t.foldl
          (fun acc r =>
            match key r with
            | none => acc
            | some g => insertKey acc g r.quantity)
          acc, ∀ q ∈ p.2, C q := by
  intro t
  induction t with
  | nil =>
      intro acc hacc _
      simpa using hacc
  | cons r t ih =>
      intro acc hacc ht
      rw [List.foldl_cons]
      cases hr : key r with
      | none =>
          simp only [hr]
          exact ih acc hacc (fun r' hr' => ht r' (List.mem_cons.2 (Or.inr hr')))
      | some g =>
          simp only [hr]
          refine ih _ ?_ (fun r' hr' => ht r' (List.mem_cons.2 (Or.inr hr')))
          intro p hp q hq
          rcases insertKey_mem acc g r.quantity p hp q hq with ⟨p', hp', hq'⟩ | rfl
          · exact hacc p' hp' q hq'
          · exact ht r (List.mem_cons_self r t)

/-- Every per-group sum over a table of non-negative quantities is
non-negative. -/
theorem mem_groupby_sum_nonneg {α : Type} [DecidableEq α] (key : Row → Option α)
    (t : Table) (h : ∀ row ∈ t, 0 ≤ row.quantity) :
    ∀ p ∈ groupby_sum key t, 0 ≤ p.2 := by
  intro p hp
  rw [groupby_sum] at hp
  obtain ⟨p0, hp0, rfl⟩ := List.mem_map.1 hp
  apply List.sum_nonneg
  intro q hq
  exact groupByKey_forall (fun q => 0 ≤ q) key t [] (by simp) h p0 hp0 q hq

/-- Every quantity of every `groupByKey` bucket obeys a predicate that all
the table's quantities obey. -/
theorem mem_groupByKey_forall {α : Type} [DecidableEq α] (C : Int → Prop)
    (key : Row → Option α) (t : Table) (h : ∀ r ∈ t, C r.quantity) :
    ∀ p ∈ groupByKey key t, ∀ q ∈ p.2, C q :=
  groupByKey_forall C key t [] (by simp) h

/-! ## Helper lemmas: non-negativity of the aggregates -/

theorem qmean_nonneg (qs : List Int) (h : ∀ q ∈ qs, 0 ≤ q) : 0 ≤ qmean qs := by
  rw [qmean]
  by_cases hl : qs.length = 0
  · simp [hl]
  · rw [if_neg hl]
    apply div_nonneg
    · exact_mod_cast List.sum_nonneg h
    · exact Nat.cast_nonneg _

theorem foldl_min_nonneg (xs : List Int) :
    ∀ x : Int, 0 ≤ x → (∀ q ∈ xs, 0 ≤ q) → 0 ≤ xs.foldl min x := by
  induction xs with
  | nil =>
      intro x hx _
      simpa using hx
  | cons y ys ih =>
      intro x hx hq
      rw [List.foldl_cons]
      exact ih (min x y) (le_min hx (hq y (List.mem_cons_self y ys)))
        (fun q hq' => hq q (List.mem_cons.2 (Or.inr hq')))

theorem foldl_max_nonneg (xs : List Int) :
    ∀ x : Int, 0 ≤ x → 0 ≤ xs.foldl max x := by
  induction xs with
  | nil =>
      intro x hx
      simpa using hx
  | cons y ys ih =>
      intro x hx
      rw [List.foldl_cons]
      exact ih (max x y) (le_trans hx (le_max_left x y))

theorem qmin_nonneg (qs : List Int) (h : ∀ q ∈ qs, 0 ≤ q) : 0 ≤ qmin qs := by
  cases qs with
  | nil => simp [qmin]
  | cons x xs =>
      exact foldl_min_nonneg xs x (h x (List.mem_cons_self x xs))
        (fun q hq => h q (List.mem_cons.2 (Or.inr hq)))

theorem qmax_nonneg (qs : List Int) (h : ∀ q ∈ qs, 0 ≤ q) : 0 ≤ qmax qs := by
  cases qs with
  | nil => simp [qmax]
  | cons x xs => exact foldl_max_nonneg xs x (h x (List.mem_cons_self x xs))

/-- On a non-negative quantity list, all five `summary_stats` aggregates are
non-negative (the sample variance unconditionally, being a mean of
squares). -/
theorem aggStats_nonneg (qs : List Int) (h : ∀ q ∈ qs, 0 ≤ q) :
    0 ≤ (aggStats qs).sum ∧ 0 ≤ (aggStats qs).mean ∧ 0 ≤ (aggStats qs).min
    ∧ 0 ≤ (aggStats qs).max ∧ ∀ v, (aggStats qs).std2 = some v → 0 ≤ v := by
  refine ⟨List.sum_nonneg h, qmean_nonneg qs h, qmin_nonneg qs h, qmax_nonneg qs h, ?_⟩
  intro v hv
  simp only [aggStats] at hv
  by_cases hl : qs.length ≤ 1
  · rw [if_pos hl] at hv
    exact absurd hv (by simp)
  · rw [if_neg hl] at hv
    obtain rfl := Option.some.inj hv
    apply div_nonneg
    · apply List.sum_nonneg
      intro x hx
      obtain ⟨q, hq, rfl⟩ := List.mem_map.1 hx
      exact sq_nonneg _
    · have h1 : (1 : ℚ) ≤ (qs.length : ℚ) := by
        exact_mod_cast Nat.one_le_iff_ne_zero.2 (by omega)
      linarith

/-- C9 amended: the generated sample table always has non-negative
quantities (`randint(1, 20)` draws are naturals), and — on any non-negative
table — non-negativity is preserved by the filter pipeline and by every
quantity aggregate the dashboard computes: the total and the average, every
per-group sum (and so the data of all five charts and of the overview
cards), the regional and character-analysis table sums and means, and the
summary statistics' sum, mean, min and max, with the sample variance
non-negative always.  A table read from the CSV file, however, is returned
without validation, so the invariant holds for it only if the file itself
satisfies it. -/
theorem claim_C9_quantity_nonneg (randoms : Nat → Nat) (df : Table) (s : Selections) :
    (∀ row ∈ sampleData randoms, 0 ≤ row.quantity)
    ∧ ((∀ row ∈ df, 0 ≤ row.quantity) →
        (∀ row ∈ applyFilters df s, 0 ≤ row.quantity)
        ∧ 0 ≤ (create_overview_metrics (applyFilters df s)).total_sales
        ∧ 0 ≤ (create_overview_metrics (applyFilters df s)).avg_sales
        ∧ (∀ (α : Type) [DecidableEq α] (key : Row → Option α),
            ∀ p ∈ groupby_sum key (applyFilters df s), 0 ≤ p.2)
        ∧ (∀ p ∈ create_sales_by_location (applyFilters df s), 0 ≤ p.2)
        ∧ (∀ p ∈ create_event_comparison (applyFilters df s), 0 ≤ p.2)
        ∧ (∀ p ∈ create_product_performance (applyFilters df s), 0 ≤ p.2)
        ∧ (∀ p ∈ create_top_characters (applyFilters df s), 0 ≤ p.2.2)
        ∧ (∀ p ∈ create_daily_performance (applyFilters df s), 0 ≤ p.2)
        ∧ (∀ e ∈ (create_overview_metrics (applyFilters df s)).regional_stats,
            0 ≤ e.2.1 ∧ 0 ≤ e.2.2.1)
        ∧ (∀ e ∈ charAnalysisRows (applyFilters df s), 0 ≤ e.2.1 ∧ 0 ≤ e.2.2.1)
        ∧ (∀ e ∈ summary_stats (applyFilters df s),
            0 ≤ e.2.sum ∧ 0 ≤ e.2.mean ∧ 0 ≤ e.2.min ∧ 0 ≤ e.2.max
            ∧ ∀ v, e.2.std2 = some v → 0 ≤ v)) := by
  constructor
  · intro row hrow
    rw [sampleData] at hrow
    obtain ⟨i, hi, hrow⟩ := List.mem_map.1 hrow
    subst hrow
    by_cases h0 : i % 3 = 0
    · simp [sampleRow, h0]
    · by_cases h1 : i % 3 = 1 <;> simp [sampleRow, h0, h1]
  · intro hdf
    have hmem : ∀ row ∈ applyFilters df s, row ∈ df := by
      intro row hrow
      rw [applyFilters_eq_filter] at hrow
      exact (List.mem_filter.1 hrow).1
    have hF : ∀ row ∈ applyFilters df s, 0 ≤ row.quantity :=
      fun row hrow => hdf row (hmem row hrow)
    refine ⟨hF, ?_, ?_, ?_, ?_, ?_, ?_, ?_, ?_, ?_, ?_, ?_⟩
    · have htot : (create_overview_metrics (applyFilters df s)).total_sales
          = ((applyFilters df s).map (fun r => r.quantity)).sum := rfl
      rw [htot]
      exact List.sum_nonneg (fun x hx => by
        obtain ⟨row, hrow, rfl⟩ := List.mem_map.1 hx
        exact hF row hrow)
    · have havg : (create_overview_metrics (applyFilters df s)).avg_sales
          = qmean ((applyFilters df s).map (fun r => r.quantity)) := rfl
      rw [havg]
      exact qmean_nonneg _ (fun q hq => by
        obtain ⟨row, hrow, rfl⟩ := List.mem_map.1 hq
        exact hF row hrow)
    · intro α inst key p hp
      exact mem_groupby_sum_nonneg key _ hF p hp
    · intro p hp
      exact mem_groupby_sum_nonneg _ _ hF p hp
    · intro p hp
      exact mem_groupby_sum_nonneg _ _ hF p hp
    · intro p hp
      exact mem_groupby_sum_nonneg _ _ hF p
        ((List.perm_insertionSort _ _).mem_iff.1 hp)
    · intro p hp
      have hp1 := List.take_subset 15 _ hp
      have hp2 := (List.perm_insertionSort _ _).mem_iff.1 hp1
      obtain ⟨p0, hp0, rfl⟩ := List.mem_map.1 hp2
      exact mem_groupby_sum_nonneg _ _ hF p0 hp0
    · intro p hp
      exact mem_groupby_sum_nonneg _ _ hF p hp
    · intro e he
      have he1 := (List.perm_insertionSort _ _).mem_iff.1 he
      obtain ⟨k, hk, rfl⟩ := List.mem_map.1 he1
      constructor
      · exact List.sum_nonneg (fun x hx => by
          obtain ⟨row, hrow, rfl⟩ := List.mem_map.1 hx
          exact hF row ((List.mem_filter.1 hrow).1))
      · exact qmean_nonneg _ (fun q hq => by
          obtain ⟨row, hrow, rfl⟩ := List.mem_map.1 hq
          exact hF row ((List.mem_filter.1 hrow).1))
    · intro e he
      have he1 := (List.perm_insertionSort _ _).mem_iff.1 he
      obtain ⟨k, hk, rfl⟩ := List.mem_map.1 he1
      constructor
      · exact List.sum_nonneg (fun x hx => by
          obtain ⟨row, hrow, rfl⟩ := List.mem_map.1 hx
          exact hF row ((List.mem_filter.1 hrow).1))
      · exact qmean_nonneg _ (fun q hq => by
          obtain ⟨row, hrow, rfl⟩ := List.mem_map.1 hq
          exact hF row ((List.mem_filter.1 hrow).1))
    · intro e he
      rw [summary_stats] at he
      obtain ⟨p0, hp0, rfl⟩ := List.mem_map.1 he
      exact aggStats_nonneg p0.2
        (mem_groupByKey_forall (fun q => 0 ≤ q) _ _ hF p0 hp0)

theorem claim_C9_quantity_nonneg_witness :
    (∀ row ∈ wTable, 0 ≤ row.quantity)
    ∧ ((∀ row ∈ applyFilters wTable allSel, 0 ≤ row.quantity)
        ∧ 0 ≤ (create_overview_metrics (applyFilters wTable allSel)).total_sales
        ∧ 0 ≤ (create_overview_metrics (applyFilters wTable allSel)).avg_sales
        ∧ (∀ (α : Type) [DecidableEq α] (key : Row → Option α),
            ∀ p ∈ groupby_sum key (applyFilters wTable allSel), 0 ≤ p.2)
        ∧ (∀ p ∈ create_sales_by_location (applyFilters wTable allSel), 0 ≤ p.2)
        ∧ (∀ p ∈ create_event_comparison (applyFilters wTable allSel), 0 ≤ p.2)
        ∧ (∀ p ∈ create_product_performance (applyFilters wTable allSel), 0 ≤ p.2)
        ∧ (∀ p ∈ create_top_characters (applyFilters wTable allSel), 0 ≤ p.2.2)
        ∧ (∀ p ∈ create_daily_performance (applyFilters wTable allSel), 0 ≤ p.2)
        ∧ (∀ e ∈ (create_overview_metrics (applyFilters wTable allSel)).regional_stats,
            0 ≤ e.2.1 ∧ 0 ≤ e.2.2.1)
        ∧ (∀ e ∈ charAnalysisRows (applyFilters wTable allSel), 0 ≤ e.2.1 ∧ 0 ≤ e.2.2.1)
        ∧ (∀ e ∈ summary_stats (applyFilters wTable allSel),
            0 ≤ e.2.sum ∧ 0 ≤ e.2.mean ∧ 0 ≤ e.2.min ∧ 0 ≤ e.2.max
            ∧ ∀ v, e.2.std2 = some v → 0 ≤ v)) :=
  ⟨by decide, (claim_C9_quantity_nonneg (fun _ => 1) wTable allSel).2 (by decide)⟩
